import Mathlib

/-!
Verification of the SignSense gesture aggregation and event distribution
pipeline (backend/gesture_buffer.py, backend/asl_processor.py,
backend/routes/calls.py) against its natural-language specification.

Timestamps and confidences are shallowly embedded as rationals; Python
`round(x, 3)` is embedded as round-half-to-even at three decimal places.
-/

namespace SignSense

/-- Round-half-to-even of a rational to the nearest integer, the tie rule
Python `round` uses. -/
def roundHalfEven (q : ℚ) : ℤ :=
  let f := ⌊q⌋
  if q - f < 1/2 then f
  else if q - f > 1/2 then f + 1
  else if f % 2 = 0 then f else f + 1

/-- Python `round(q, 3)`: round to three decimal places, half to even. -/
def round3 (q : ℚ) : ℚ := (roundHalfEven (q * 1000) : ℚ) / 1000

/-- State of `GestureBuffer` (gesture_buffer.py): the deque of
`{"gesture", "timestamp"}` records (newest last), `_last_gesture`,
`_last_gesture_time`, `_last_add_time`, and the three configuration
values `max_size`, `silence_timeout`, `debounce_seconds`. -/
structure GestureBuffer where
  buffer : List (String × ℚ)
  lastGesture : Option String
  lastGestureTime : ℚ
  lastAddTime : ℚ
  maxSize : ℕ
  silenceTimeout : ℚ
  debounceSeconds : ℚ
deriving DecidableEq, Repr

/-- `GestureBuffer.__init__`: empty deque, no last gesture, `_last_gesture_time = 0.0`,
`_last_add_time = time.monotonic()` (passed as `initTime`). Defaults:
`max_size=30`, `silence_timeout=2.0`, `debounce_seconds=0.4`. -/
def GestureBuffer.init (initTime : ℚ) (maxSize : ℕ := 30)
    (silenceTimeout : ℚ := 2) (debounceSeconds : ℚ := 2/5) : GestureBuffer :=
  { buffer := [], lastGesture := none, lastGestureTime := 0,
    lastAddTime := initTime, maxSize := maxSize,
    silenceTimeout := silenceTimeout, debounceSeconds := debounceSeconds }

/-- `GestureBuffer._reset`: clear the deque and reset `_last_gesture` /
`_last_gesture_time`. Note the code does not touch `_last_add_time`. -/
def GestureBuffer.reset (b : GestureBuffer) : GestureBuffer :=
  { b with buffer := [], lastGesture := none, lastGestureTime := 0 }

/-- `deque(maxlen=n).append`: drop from the left when full. -/
def dequeAppend (maxSize : ℕ) (xs : List (String × ℚ)) (x : String × ℚ) :
    List (String × ℚ) :=
  let ys := xs ++ [x]
  if maxSize < ys.length then ys.drop (ys.length - maxSize) else ys

/-- The tail of `GestureBuffer.add` after the silence check: the debounce
rejection test, then append and update of the three time/label fields. -/
def GestureBuffer.addPost (b : GestureBuffer) (gesture : String) (now : ℚ) :
    Bool × GestureBuffer :=
  if b.lastGesture = some gesture ∧ now - b.lastGestureTime < b.debounceSeconds then
    (false, b)
  else
    (true, { b with
      buffer := dequeAppend b.maxSize b.buffer (gesture, now),
      lastGesture := some gesture,
      lastGestureTime := now,
      lastAddTime := now })

/-- `GestureBuffer.add(gesture)` at monotonic time `now`: silence-triggered
reset first (only when the deque is non-empty), then the debounce rejection
check (`addPost`). Returns the accept flag together with the updated
buffer state. -/
def GestureBuffer.add (b : GestureBuffer) (gesture : String) (now : ℚ) :
    Bool × GestureBuffer :=
  (if b.silenceTimeout < now - b.lastAddTime ∧ b.buffer ≠ [] then b.reset
   else b).addPost gesture now

/-- Run `GestureBuffer.add` over a list of `(gesture, now)` observations,
collecting the accept flags in order. -/
def GestureBuffer.addAll (b : GestureBuffer) :
    List (String × ℚ) → GestureBuffer × List Bool
  | [] => (b, [])
  | (g, t) :: rest =>
    let (acc, b2) := b.add g t
    let (b3, accs) := b2.addAll rest
    (b3, acc :: accs)

/-- `ASLGestureProcessor` state relevant to `_on_frame`: the configured
confidence threshold and the `GestureBuffer`. -/
structure ASLState where
  threshold : ℚ
  buffer : GestureBuffer
deriving DecidableEq, Repr

/-- Python `str.upper()`: upper-case every character. -/
def pyUpper (s : String) : String :=
  ⟨s.data.map Char.toUpper⟩

/-- `str(top.get("class", "")).upper() or "[UNKNOWN]"`: the upper-cased
class name, with the Python falsy-empty-string fallback. -/
def gestureLabel (cls : String) : String :=
  if pyUpper cls = "" then "[UNKNOWN]" else pyUpper cls

/-- The decision tail of `ASLGestureProcessor._on_frame` once a top
prediction with class `cls` and raw confidence `rawConf` is in hand at
monotonic time `now`: the event confidence is `round(raw_conf, 3)`; if
`raw_conf < threshold` the buffer is untouched and a single
`("[UNCLEAR]", confidence)` callback fires; otherwise `buffer.add` decides,
an accepted gesture fires one `(gesture, confidence)` callback, and a
rejected one fires none. Returns the new state and the list of
`on_gesture(label, confidence)` invocations. -/
def onFrame (s : ASLState) (cls : String) (rawConf : ℚ) (now : ℚ) :
    ASLState × List (String × ℚ) :=
  let confidence := round3 rawConf
  let gesture := gestureLabel cls
  if rawConf < s.threshold then
    (s, [("[UNCLEAR]", confidence)])
  else
    let r := s.buffer.add gesture now
    if r.1 then ({ s with buffer := r.2 }, [(gesture, confidence)])
    else ({ s with buffer := r.2 }, [])

/-- An SSE event dict as pushed by routes/calls.py: a gesture event
`{"type": "gesture", "gesture", "confidence", "timestamp"}`, a transcript
event `{"type": "transcript", "sentence", "timestamp"}`, or the keepalive
`{"type": "ping"}`. -/
inductive Event where
  | gesture (label : String) (confidence : ℚ) (timestamp : ℚ)
  | transcript (sentence : String) (timestamp : ℚ)
  | ping
deriving DecidableEq, Repr

/-- An `asyncio.Queue`: FIFO item list plus the `maxsize` passed to the
constructor (`maxsize <= 0` means unbounded, as in asyncio). -/
structure AQueue (α : Type) where
  items : List α
  maxsize : ℤ
deriving DecidableEq, Repr

/-- `asyncio.Queue.full()`: false when `maxsize <= 0`, else
`qsize() >= maxsize`. -/
def AQueue.full (q : AQueue α) : Bool :=
  if q.maxsize ≤ 0 then false else q.maxsize ≤ (q.items.length : ℤ)

/-- `asyncio.Queue.put_nowait(x)`: `none` models the `QueueFull` exception,
`some` the queue with `x` appended. -/
def AQueue.put_nowait (q : AQueue α) (x : α) : Option (AQueue α) :=
  if q.full then none else some { q with items := q.items ++ [x] }

/-- `_push_event(call_id, event)` over the subscriber queue list
`event_queues.get(call_id, [])`: for each queue in order, `put_nowait` and
swallow `QueueFull` (drop for that subscriber only). -/
def _push_event : List (AQueue Event) → Event → List (AQueue Event)
  | [], _ => []
  | q :: qs, e => ((q.put_nowait e).getD q) :: _push_event qs e

/-- The per-call mutable state that `make_on_gesture_callback(call_id)`
reads and writes: `event_queues[call_id]` when the key is present
(`none` models `call_id not in event_queues`), and
`gesture_input_queues.get(call_id)`. -/
structure CallState where
  eventQueues : Option (List (AQueue Event))
  gestureQueue : Option (AQueue String)
deriving DecidableEq, Repr

/-- The closure returned by `make_on_gesture_callback(call_id)`, invoked as
`on_gesture(label, confidence)` at wall-clock time `wallClock`: early
return when the call has no `event_queues` entry; otherwise push one
gesture event to every subscriber queue, then feed the label into the
gesture input queue (dropping on `QueueFull`) unless it is the
`"[UNCLEAR]"` sentinel. -/
def onGestureCallback (cs : CallState) (label : String) (confidence : ℚ)
    (wallClock : ℚ) : CallState :=
  match cs.eventQueues with
  | none => cs
  | some qs =>
    let cs2 := { cs with
      eventQueues := some (_push_event qs (Event.gesture label confidence wallClock)) }
    if label ≠ "[UNCLEAR]" then
      match cs2.gestureQueue with
      | some q => { cs2 with gestureQueue := some ((q.put_nowait label).getD q) }
      | none => cs2
    else cs2

/-- The fixed prompt text of `_interpret_and_emit` that precedes the joined
sign sequence. -/
def promptIntro : String :=
  "You are a real-time ASL interpreter giving voice to a deaf user.\nTranslate the following sequence of detected ASL signs into a single, natural English sentence.\n\nSigns: "

/-- The fixed prompt text of `_interpret_and_emit` that follows the joined
sign sequence. -/
def promptRules : String :=
  "\n\nRules:\n- Respond with ONLY the English sentence — no explanation, no preamble.\n- Apply ASL grammar: topic-comment structure, add articles/copulas as needed.\n- If only individual letters, treat as fingerspelling and form the word.\n- Speak in first person when the user signs about themselves."

/-- The prompt `_interpret_and_emit` builds: the fixed instruction text
around `sequence = " ".join(gestures)`. -/
def buildPrompt (gestures : List String) : String :=
  promptIntro ++ String.intercalate " " gestures ++ promptRules

/-- Outcome of the external Gemini call inside `_interpret_and_emit`:
`noApiKey` models falsy `settings.GOOGLE_API_KEY`, `raised` an exception
anywhere in the `try` block, `ok t` a completed call whose `response.text`
is `t` (`none` models Python `None`). -/
inductive GeminiOutcome where
  | noApiKey
  | raised
  | ok (text : Option String)
deriving DecidableEq, Repr

/-- Python `str.strip()`: drop whitespace from both ends. -/
def pyStrip (s : String) : String :=
  ⟨((s.data.dropWhile Char.isWhitespace).reverse.dropWhile
      Char.isWhitespace).reverse⟩

/-- `_interpret_and_emit(call_id, gestures)` with external outcome `o` at
wall-clock time `wallClock`: returns the list of transcript events it
pushes through `_push_event` (empty on missing key, exception, or
empty/whitespace response text; a single event otherwise, carrying
`sentence = (response.text or "").strip()`). It is a total function: every
failure path returns normally. -/
def _interpret_and_emit (gestures : List String) (o : GeminiOutcome)
    (wallClock : ℚ) : List Event :=
  match o with
  | .noApiKey => []
  | .raised => []
  | .ok t =>
    let _prompt := buildPrompt gestures
    let sentence := pyStrip (t.getD "")
    if sentence = "" then [] else [Event.transcript sentence wallClock]

/-- One iteration of the `_transcript_processor` wait loop either receives
a gesture label from the input queue within the 2.5 s window, hits
`asyncio.TimeoutError` (silence window elapsed), or has
`asyncio.CancelledError` delivered (the task was cancelled by
`stop_agent`). -/
inductive PInput where
  | token (g : String)
  | timeout
  | cancel
deriving DecidableEq, Repr

/-- State of the `_transcript_processor` task: the accumulated `gestures`
list, and whether the task has terminated. -/
structure PState where
  gestures : List String
  stopped : Bool
deriving DecidableEq, Repr

/-- One step of `_transcript_processor`: a received gesture is appended; a
timeout flushes the accumulated list to `_interpret_and_emit` only when
non-empty, then clears it; cancellation flushes any remaining gestures and
terminates the task. Returns the new state and the phrase handed to
`_interpret_and_emit`, when any. A stopped task does nothing. -/
def transcriptStep (st : PState) (i : PInput) : PState × Option (List String) :=
  if st.stopped then (st, none)
  else
    match i with
    | .token g => ({ st with gestures := st.gestures ++ [g] }, none)
    | .timeout =>
      if st.gestures = [] then (st, none)
      else ({ st with gestures := [] }, some st.gestures)
    | .cancel =>
      if st.gestures = [] then ({ st with stopped := true }, none)
      else ({ gestures := [], stopped := true }, some st.gestures)

/-- Run `_transcript_processor` over a sequence of loop inputs, collecting
the flushed phrases in order. -/
def transcriptRun (st : PState) : List PInput → PState × List (List String)
  | [] => (st, [])
  | i :: is =>
    let (st2, out) := transcriptStep st i
    let (st3, outs) := transcriptRun st2 is
    (st3, out.toList ++ outs)

/-! Helper lemmas shared by the claim theorems. -/

lemma addPost_reject (b : GestureBuffer) (g : String) (t : ℚ)
    (h1 : b.lastGesture = some g) (h2 : t - b.lastGestureTime < b.debounceSeconds) :
    b.addPost g t = (false, b) := by
  simp [GestureBuffer.addPost, h1, h2]

lemma addPost_accept (b : GestureBuffer) (g : String) (t : ℚ)
    (h : ¬ (b.lastGesture = some g ∧ t - b.lastGestureTime < b.debounceSeconds)) :
    b.addPost g t
      = (true, { b with
          buffer := dequeAppend b.maxSize b.buffer (g, t),
          lastGesture := some g, lastGestureTime := t, lastAddTime := t }) := by
  simp only [GestureBuffer.addPost, if_neg h]

lemma add_no_reset (b : GestureBuffer) (g : String) (t : ℚ)
    (h : ¬ (b.silenceTimeout < t - b.lastAddTime ∧ b.buffer ≠ [])) :
    b.add g t = b.addPost g t := by
  simp only [GestureBuffer.add, if_neg h]

lemma add_reset (b : GestureBuffer) (g : String) (t : ℚ)
    (h1 : b.silenceTimeout < t - b.lastAddTime) (h2 : b.buffer ≠ []) :
    b.add g t = b.reset.addPost g t := by
  simp only [GestureBuffer.add, if_pos (And.intro h1 h2)]

lemma reset_addPost_accept (b : GestureBuffer) (g : String) (t : ℚ) :
    (b.reset.addPost g t).1 = true := by
  have h : ¬ (b.reset.lastGesture = some g ∧
      t - b.reset.lastGestureTime < b.reset.debounceSeconds) := by
    rintro ⟨hl, -⟩
    simp [GestureBuffer.reset] at hl
  rw [addPost_accept _ _ _ h]

lemma add_reject (b : GestureBuffer) (g : String) (t : ℚ)
    (h1 : b.lastGesture = some g) (h2 : t - b.lastGestureTime < b.debounceSeconds)
    (h3 : t - b.lastAddTime ≤ b.silenceTimeout) :
    b.add g t = (false, b) := by
  have hs : ¬ (b.silenceTimeout < t - b.lastAddTime ∧ b.buffer ≠ []) := by
    rintro ⟨hl, -⟩
    exact absurd h3 (not_le.2 hl)
  rw [add_no_reset _ _ _ hs, addPost_reject _ _ _ h1 h2]

/-- C9: `_push_event` never blocks or fails the producer. For every
registered subscriber queue a non-blocking enqueue is attempted; a full
queue keeps its contents unchanged (the event is dropped for that
subscriber only) while every non-full queue receives the event appended,
each subscriber being affected independently of the others; and publishing
with zero registered subscribers is a silent no-op. -/
theorem C9_publish_isolation :
    (∀ e : Event, _push_event [] e = []) ∧
    (∀ (qs : List (AQueue Event)) (e : Event),
      _push_event qs e
        = qs.map (fun q =>
            if q.full then q else { q with items := q.items ++ [e] })) := by
  refine ⟨fun _ => rfl, fun qs e => ?_⟩
  induction qs with
  | nil => rfl
  | cons q qs ih =>
    simp only [_push_event, List.map, ih, AQueue.put_nowait]
    cases hf : q.full <;> simp [hf]

/-- C5: every phrase handed to `_interpret_and_emit` is non-empty (both at
a single step and across any run of the processor loop), the interpreter
invocation emits at most one transcript event per phrase, and a silence
timeout or a cancellation with zero pending gestures flushes nothing. -/
theorem C5_phrase_nonempty :
    (∀ (st : PState) (i : PInput) (p : List String),
       (transcriptStep st i).2 = some p → p ≠ []) ∧
    (∀ (st : PState) (inputs : List PInput) (p : List String),
       p ∈ (transcriptRun st inputs).2 → p ≠ []) ∧
    (∀ (gs : List String) (o : GeminiOutcome) (w : ℚ),
       (_interpret_and_emit gs o w).length ≤ 1) ∧
    (∀ stopped : Bool,
       transcriptStep ⟨[], stopped⟩ PInput.timeout = (⟨[], stopped⟩, none)) ∧
    (∀ stopped : Bool,
       (transcriptStep ⟨[], stopped⟩ PInput.cancel).2 = none) := by
  have step : ∀ (st : PState) (i : PInput) (p : List String),
      (transcriptStep st i).2 = some p → p ≠ [] := by
    intro st i p h
    unfold transcriptStep at h
    by_cases hs : st.stopped = true
    · simp [hs] at h
    · simp only [Bool.not_eq_true] at hs
      cases i with
      | token g => simp [hs] at h
      | timeout =>
        by_cases hg : st.gestures = []
        · simp [hs, hg] at h
        · simp [hs, hg] at h
          exact h ▸ hg
      | cancel =>
        by_cases hg : st.gestures = []
        · simp [hs, hg] at h
        · simp [hs, hg] at h
          exact h ▸ hg
  refine ⟨step, ?_, ?_, ?_, ?_⟩
  · intro st inputs
    induction inputs generalizing st with
    | nil => intro p h; simp [transcriptRun] at h
    | cons i is ih =>
      intro p h
      simp only [transcriptRun, List.mem_append] at h
      rcases h with h | h
      · exact step st i p (Option.mem_def.1 (Option.mem_toList.1 h))
      · exact ih _ p h
  · intro gs o w
    cases o with
    | noApiKey => simp [_interpret_and_emit]
    | raised => simp [_interpret_and_emit]
    | ok t =>
      simp only [_interpret_and_emit]
      split <;> simp
  · intro stopped; cases stopped <;> rfl
  · intro stopped; cases stopped <;> rfl

/-- C5 witness: the theorem applied at concrete inputs. -/
theorem C5_phrase_nonempty_witness :
    (["A"] ≠ ([] : List String)) ∧ (["A", "B"] ≠ ([] : List String)) ∧
    (_interpret_and_emit ["A"] (GeminiOutcome.ok (some "Hi")) 0).length ≤ 1 :=
  ⟨C5_phrase_nonempty.1 ⟨["A"], false⟩ PInput.timeout ["A"] rfl,
   C5_phrase_nonempty.2.1 ⟨["A", "B"], false⟩ [PInput.timeout] ["A", "B"]
     (by simp [transcriptRun, transcriptStep]),
   C5_phrase_nonempty.2.2.1 ["A"] (GeminiOutcome.ok (some "Hi")) 0⟩

/-- C6: cancelling the `_transcript_processor` task (what `stop_agent`
does) while gestures are pending flushes exactly that pending phrase to
the interpreter and then terminates; the phrase is not lost. -/
theorem C6_stop_flush :
    ∀ st : PState, st.stopped = false → st.gestures ≠ [] →
      transcriptStep st PInput.cancel = (⟨[], true⟩, some st.gestures) := by
  rintro ⟨gs, stopped⟩ h1 h2
  simp only at h1
  subst h1
  simp only at h2
  simp [transcriptStep, h2]

/-- C6 witness: stopping with two pending tokens flushes the phrase
`["t1", "t2"]` before termination. -/
theorem C6_stop_flush_witness :
    transcriptStep ⟨["t1", "t2"], false⟩ PInput.cancel
      = (⟨[], true⟩, some ["t1", "t2"]) :=
  C6_stop_flush ⟨["t1", "t2"], false⟩ rfl (by simp)

/-- C8: `_interpret_and_emit` is total (it returns normally on every
outcome of the external call) and emits no transcript event on any failure
mode: missing API key, an exception from the external call, or an
empty/whitespace response text; on a non-empty response it emits exactly
one transcript event carrying the stripped text. -/
theorem C8_interpret_failures :
    ∀ (gs : List String) (w : ℚ),
      _interpret_and_emit gs GeminiOutcome.noApiKey w = [] ∧
      _interpret_and_emit gs GeminiOutcome.raised w = [] ∧
      (∀ t : Option String, pyStrip (t.getD "") = "" →
        _interpret_and_emit gs (GeminiOutcome.ok t) w = []) ∧
      (∀ t : Option String, pyStrip (t.getD "") ≠ "" →
        _interpret_and_emit gs (GeminiOutcome.ok t) w
          = [Event.transcript (pyStrip (t.getD "")) w]) := by
  intro gs w
  refine ⟨rfl, rfl, ?_, ?_⟩ <;> intro t h <;> simp [_interpret_and_emit, h]

/-- C8 witness: the theorem applied at a concrete phrase, covering the
missing-key, `None`-text, whitespace-text and successful outcomes. -/
theorem C8_interpret_failures_witness :
    _interpret_and_emit ["HELLO"] GeminiOutcome.noApiKey 0 = [] ∧
    _interpret_and_emit ["HELLO"] (GeminiOutcome.ok none) 0 = [] ∧
    _interpret_and_emit ["HELLO"] (GeminiOutcome.ok (some "  ")) 0 = [] ∧
    _interpret_and_emit ["HELLO"] (GeminiOutcome.ok (some "Hello.")) 0
      = [Event.transcript "Hello." 0] :=
  ⟨(C8_interpret_failures ["HELLO"] 0).1,
   (C8_interpret_failures ["HELLO"] 0).2.2.1 none (by decide),
   (C8_interpret_failures ["HELLO"] 0).2.2.1 (some "  ") (by decide),
   by
     rw [(C8_interpret_failures ["HELLO"] 0).2.2.2 (some "Hello.") (by decide)]
     decide⟩

lemma transcriptRun_tokens_timeout :
    ∀ (gs acc : List String), acc ++ gs ≠ [] →
      transcriptRun ⟨acc, false⟩ (gs.map PInput.token ++ [PInput.timeout])
        = (⟨[], false⟩, [acc ++ gs]) := by
  intro gs
  induction gs with
  | nil =>
    intro acc h
    simp only [List.append_nil] at h
    simp [transcriptRun, transcriptStep, h]
  | cons g gs ih =>
    intro acc h
    have h2 : (acc ++ [g]) ++ gs ≠ [] := by
      intro hc
      rcases List.append_eq_nil.1 hc with ⟨hc1, -⟩
      exact absurd hc1 (by simp)
    have := ih (acc ++ [g]) h2
    simp only [List.map, List.cons_append, transcriptRun, transcriptStep]
    simp only [transcriptRun] at this
    simp [this]

/-- C7: for every completed phrase, the token sequence handed to the
interpreter is the accumulated gestures followed by the newly received
tokens in arrival (acceptance) order, and the prompt submitted to the
external service is that sequence joined with single spaces, preceded by
the fixed instruction text `promptIntro` (and followed by the fixed
`promptRules` text). -/
theorem C7_order_and_prompt :
    ∀ (st : PState) (gs : List String), st.stopped = false → gs ≠ [] →
      transcriptRun st (gs.map PInput.token ++ [PInput.timeout])
        = (⟨[], false⟩, [st.gestures ++ gs]) ∧
      buildPrompt (st.gestures ++ gs)
        = promptIntro ++ String.intercalate " " (st.gestures ++ gs)
            ++ promptRules := by
  rintro ⟨acc, stopped⟩ gs h1 h2
  simp only at h1
  subst h1
  refine ⟨?_, rfl⟩
  apply transcriptRun_tokens_timeout
  intro hc
  rcases List.append_eq_nil.1 hc with ⟨-, hc2⟩
  exact h2 hc2

/-- C7 witness: the theorem applied with one already-pending token and two
newly arriving tokens. -/
theorem C7_order_and_prompt_witness :
    transcriptRun ⟨["A"], false⟩
        ([PInput.token "B", PInput.token "C"] ++ [PInput.timeout])
      = (⟨[], false⟩, [["A", "B", "C"]]) ∧
    buildPrompt ["A", "B", "C"]
      = promptIntro ++ String.intercalate " " ["A", "B", "C"] ++ promptRules := by
  have := C7_order_and_prompt ⟨["A"], false⟩ ["B", "C"] rfl (by simp)
  simpa using this

unseal Rat.sub Rat.add Rat.mul Rat.inv in
/-- C1 counterexample: an observation with confidence 0.3 (below the 0.65
threshold) arriving 5 s (more than the 2.0 s silence timeout) after the
last accepted token, while the history holds one token, leaves the
processor state — history included — completely unchanged: the
silence-triggered reset is not performed for a low-confidence observation,
because `_on_frame` returns before ever calling `GestureBuffer.add`. -/
theorem C1_cex :
    ((3 : ℚ)/10 < 65/100) ∧
    ((2 : ℚ) < 5 - 0) ∧
    (((GestureBuffer.init 0).add "HELLO" 0).2.buffer = [("HELLO", 0)] ∧
     ((GestureBuffer.init 0).add "HELLO" 0).2.lastAddTime = 0) ∧
    (onFrame ⟨65/100, ((GestureBuffer.init 0).add "HELLO" 0).2⟩ "X" (3/10) 5
      = (⟨65/100, ((GestureBuffer.init 0).add "HELLO" 0).2⟩,
         [("[UNCLEAR]", 3/10)])) := by decide

/-- C1 (amended): a below-threshold observation never touches the buffer —
`_on_frame` returns before `GestureBuffer.add`, so no silence reset
happens for it; the silence-triggered reset runs only inside
`GestureBuffer.add`, i.e. only for high-confidence observations, where it
does precede the debounce check, so such an observation always starts a
new phrase and is accepted. -/
theorem C1_low_confidence_skips_reset :
    (∀ (s : ASLState) (cls : String) (raw t : ℚ), raw < s.threshold →
       (onFrame s cls raw t).1 = s ∧
       (onFrame s cls raw t).2 = [("[UNCLEAR]", round3 raw)]) ∧
    (∀ (b : GestureBuffer) (g : String) (t : ℚ),
       b.silenceTimeout < t - b.lastAddTime → b.buffer ≠ [] →
       b.add g t = b.reset.add g t ∧ (b.add g t).1 = true) := by
  constructor
  · intro s cls raw t h
    simp [onFrame, h]
  · intro b g t h1 h2
    have hreset : b.reset.add g t = b.reset.addPost g t := by
      apply add_no_reset
      rintro ⟨-, hb⟩
      simp [GestureBuffer.reset] at hb
    refine ⟨?_, ?_⟩
    · rw [add_reset _ _ _ h1 h2, hreset]
    · rw [add_reset _ _ _ h1 h2]
      exact reset_addPost_accept _ _ _

unseal Rat.sub Rat.add Rat.mul Rat.inv in
/-- C1 witness: the amended theorem applied at the counterexample's state
and at a high-confidence observation after a long gap. -/
theorem C1_low_confidence_skips_reset_witness :
    ((onFrame ⟨65/100, ((GestureBuffer.init 0).add "HELLO" 0).2⟩ "X" (3/10) 5).1
       = ⟨65/100, ((GestureBuffer.init 0).add "HELLO" 0).2⟩) ∧
    (((GestureBuffer.init 0).add "HELLO" 0).2.add "BYE" 5
       = ((GestureBuffer.init 0).add "HELLO" 0).2.reset.add "BYE" 5 ∧
     (((GestureBuffer.init 0).add "HELLO" 0).2.add "BYE" 5).1 = true) :=
  ⟨(C1_low_confidence_skips_reset.1 ⟨65/100, ((GestureBuffer.init 0).add "HELLO" 0).2⟩
      "X" (3/10) 5 (by decide)).1,
   C1_low_confidence_skips_reset.2 ((GestureBuffer.init 0).add "HELLO" 0).2
     "BYE" 5 (by decide) (by decide)⟩

unseal Rat.sub Rat.add Rat.mul Rat.inv in
/-- C2 counterexample: the first high-confidence "HELLO" emits one gesture
event, but a second identical "HELLO" 0.1 s later (a debounced duplicate)
emits no event at all — so it is not the case that exactly one
GestureEvent is emitted for every observation. -/
theorem C2_cex :
    ((onFrame ⟨65/100, GestureBuffer.init 0⟩ "HELLO" (9/10) 0).2.length = 1) ∧
    ((onFrame (onFrame ⟨65/100, GestureBuffer.init 0⟩ "HELLO" (9/10) 0).1
        "HELLO" (9/10) (1/10)).2 = []) := by decide

/-- C2 (amended): exactly one GestureEvent is emitted for an unclear
(below-threshold) observation and for an accepted one, but a debounced
duplicate emits no event at all. -/
theorem C2_event_emission :
    (∀ (s : ASLState) (cls : String) (raw t : ℚ), raw < s.threshold →
       ((onFrame s cls raw t).2).length = 1) ∧
    (∀ (s : ASLState) (cls : String) (raw t : ℚ), ¬ raw < s.threshold →
       (s.buffer.add (gestureLabel cls) t).1 = true →
       (onFrame s cls raw t).2 = [(gestureLabel cls, round3 raw)]) ∧
    (∀ (s : ASLState) (cls : String) (raw t : ℚ), ¬ raw < s.threshold →
       (s.buffer.add (gestureLabel cls) t).1 = false →
       (onFrame s cls raw t).2 = []) := by
  refine ⟨?_, ?_, ?_⟩
  · intro s cls raw t h
    simp [onFrame, h]
  · intro s cls raw t h h2
    simp [onFrame, h, h2]
  · intro s cls raw t h h2
    simp [onFrame, h, h2]

unseal Rat.sub Rat.add Rat.mul Rat.inv in
/-- C2 witness: the amended theorem applied to an unclear observation, an
accepted observation, and a debounced duplicate. -/
theorem C2_event_emission_witness :
    ((onFrame ⟨65/100, GestureBuffer.init 0⟩ "X" (3/10) 0).2.length = 1) ∧
    ((onFrame ⟨65/100, GestureBuffer.init 0⟩ "HELLO" (9/10) 0).2
       = [(gestureLabel "HELLO", round3 (9/10))]) ∧
    ((onFrame (onFrame ⟨65/100, GestureBuffer.init 0⟩ "HELLO" (9/10) 0).1
        "HELLO" (9/10) (1/10)).2 = []) :=
  ⟨C2_event_emission.1 ⟨65/100, GestureBuffer.init 0⟩ "X" (3/10) 0 (by decide),
   C2_event_emission.2.1 ⟨65/100, GestureBuffer.init 0⟩ "HELLO" (9/10) 0
     (by decide) (by decide),
   C2_event_emission.2.2 (onFrame ⟨65/100, GestureBuffer.init 0⟩ "HELLO" (9/10) 0).1
     "HELLO" (9/10) (1/10) (by decide) (by decide)⟩

unseal Rat.sub Rat.add Rat.mul Rat.inv in
/-- C3 counterexample: three identical high-confidence "A" observations at
times 0, 0.3 and 0.6 with debounce 0.4 have both consecutive gaps strictly
below the debounce interval, yet the third is accepted (a rejection does
not refresh the debounce timer, so the third is measured against time 0),
refuting that only the first of such a sequence is accepted. -/
theorem C3_cex :
    ((3 : ℚ)/10 - 0 < 2/5) ∧ ((3 : ℚ)/5 - 3/10 < 2/5) ∧
    ((GestureBuffer.init 0).addAll [("A", 0), ("A", 3/10), ("A", 3/5)]).2
      = [true, false, true] := by decide

lemma addAll_reject_run (b : GestureBuffer) (g : String) (t0 : ℚ) :
    ∀ ts : List ℚ,
      b.lastGesture = some g → b.lastGestureTime = t0 → b.lastAddTime = t0 →
      (∀ t ∈ ts, t - t0 < b.debounceSeconds ∧ t - t0 ≤ b.silenceTimeout) →
      b.addAll (ts.map fun t => (g, t)) = (b, ts.map fun _ => false) := by
  intro ts h1 h2 h3
  induction ts with
  | nil => intro _; simp [GestureBuffer.addAll]
  | cons t ts ih =>
    intro hts
    have hh := hts t (by simp)
    have hrej : b.add g t = (false, b) :=
      add_reject b g t h1 (by rw [h2]; exact hh.1) (by rw [h3]; exact hh.2)
    have htail := ih fun u hu => hts u (List.mem_cons_of_mem _ hu)
    simp [GestureBuffer.addAll, hrej, htail]

unseal Rat.sub Rat.add Rat.mul Rat.inv in
/-- C3 (amended): a high-confidence observation with the same label as the
last accepted one is rejected iff it arrives strictly less than
`debounceInterval` after the last accepted occurrence — rejections do not
refresh the debounce timer. Hence in a run of identical labels all lying
within `debounceInterval` of the first accepted one, only the first is
accepted (but consecutive sub-debounce gaps alone do not guarantee
rejection); an identical label at gap at least `debounceInterval` from the
last accepted one, or a different label, is accepted. The spec's concrete
scenario (HELLO at 0, HELLO at 0.1, NAME at 0.6) behaves as stated. -/
theorem C3_debounce :
    (∀ (b : GestureBuffer) (g : String) (t : ℚ),
       b.lastGesture = some g → t - b.lastGestureTime < b.debounceSeconds →
       t - b.lastAddTime ≤ b.silenceTimeout → b.add g t = (false, b)) ∧
    (∀ (b : GestureBuffer) (g : String) (t : ℚ),
       b.debounceSeconds ≤ t - b.lastGestureTime → (b.add g t).1 = true) ∧
    (∀ (b : GestureBuffer) (g : String) (t : ℚ),
       b.lastGesture ≠ some g → (b.add g t).1 = true) ∧
    (∀ (b : GestureBuffer) (g : String) (t0 : ℚ) (ts : List ℚ),
       b.lastGesture = some g → b.lastGestureTime = t0 → b.lastAddTime = t0 →
       (∀ t ∈ ts, t - t0 < b.debounceSeconds ∧ t - t0 ≤ b.silenceTimeout) →
       b.addAll (ts.map fun t => (g, t)) = (b, ts.map fun _ => false)) ∧
    (((GestureBuffer.init 0).addAll
        [("HELLO", 0), ("HELLO", 1/10), ("NAME", 3/5)]).2
      = [true, false, true]) := by
  refine ⟨add_reject, ?_, ?_, addAll_reject_run, by decide⟩
  · intro b g t h
    by_cases hr : b.silenceTimeout < t - b.lastAddTime ∧ b.buffer ≠ []
    · simp only [GestureBuffer.add, if_pos hr]
      exact reset_addPost_accept b g t
    · have hnlt : ¬ (b.lastGesture = some g ∧
          t - b.lastGestureTime < b.debounceSeconds) := by
        rintro ⟨-, hlt⟩
        exact absurd hlt (not_lt.2 h)
      rw [add_no_reset _ _ _ hr, addPost_accept _ _ _ hnlt]
  · intro b g t h
    by_cases hr : b.silenceTimeout < t - b.lastAddTime ∧ b.buffer ≠ []
    · simp only [GestureBuffer.add, if_pos hr]
      exact reset_addPost_accept b g t
    · have hne : ¬ (b.lastGesture = some g ∧
          t - b.lastGestureTime < b.debounceSeconds) := by
        rintro ⟨he, -⟩
        exact h he
      rw [add_no_reset _ _ _ hr, addPost_accept _ _ _ hne]

unseal Rat.sub Rat.add Rat.mul Rat.inv in
/-- C3 witness: the amended theorem applied at concrete buffers — a
duplicate 0.3 s after the accepted "A" is rejected, "A" again at gap 0.4
is accepted, a different label "B" at gap 0.1 is accepted, and a run of
two sub-debounce duplicates is entirely rejected. -/
theorem C3_debounce_witness :
    (((GestureBuffer.init 0).add "A" 0).2.add "A" (3/10)
       = (false, ((GestureBuffer.init 0).add "A" 0).2)) ∧
    ((((GestureBuffer.init 0).add "A" 0).2.add "A" (2/5)).1 = true) ∧
    ((((GestureBuffer.init 0).add "A" 0).2.add "B" (1/10)).1 = true) ∧
    (((GestureBuffer.init 0).add "A" 0).2.addAll
        ([1/10, 3/10].map fun t => ("A", t))
      = (((GestureBuffer.init 0).add "A" 0).2, [false, false])) :=
  ⟨C3_debounce.1 ((GestureBuffer.init 0).add "A" 0).2 "A" (3/10)
     (by decide) (by decide) (by decide),
   C3_debounce.2.1 ((GestureBuffer.init 0).add "A" 0).2 "A" (2/5) (by decide),
   C3_debounce.2.2.1 ((GestureBuffer.init 0).add "A" 0).2 "B" (1/10) (by decide),
   C3_debounce.2.2.2.1 ((GestureBuffer.init 0).add "A" 0).2 "A" 0 [1/10, 3/10]
     (by decide) (by decide) (by decide) (by decide)⟩

unseal Rat.sub Rat.add Rat.mul Rat.inv in
/-- C4 counterexample: for the below-threshold observation with class "X"
and raw confidence 0.1234, the emitted event carries the sentinel label
"[UNCLEAR]" — not "UNCLEAR" as the claim states — and the confidence
0.123 rounded to three decimal places, not the raw 0.1234. -/
theorem C4_cex :
    ((1234 : ℚ)/10000 < 65/100) ∧
    ((onFrame ⟨65/100, GestureBuffer.init 0⟩ "X" (1234/10000) 0).2
       = [("[UNCLEAR]", 123/1000)]) ∧
    ("[UNCLEAR]" ≠ "UNCLEAR") ∧ ((123 : ℚ)/1000 ≠ 1234/10000) := by decide

/-- C4 (amended): an observation with confidence exactly equal to the
threshold takes the high-confidence path (and, when the buffer accepts it,
emits one gesture event with the real label); an observation strictly
below the threshold mutates no state (no debounce history change, no
token), and causes exactly one event with sentinel label "[UNCLEAR]" and
the raw confidence rounded to three decimal places; the callback never
feeds "[UNCLEAR]" into the pending-phrase queue. -/
theorem C4_threshold_boundary :
    (∀ (s : ASLState) (cls : String) (t : ℚ),
       (s.buffer.add (gestureLabel cls) t).1 = true →
       onFrame s cls s.threshold t
         = ({ s with buffer := (s.buffer.add (gestureLabel cls) t).2 },
            [(gestureLabel cls, round3 s.threshold)])) ∧
    (∀ (s : ASLState) (cls : String) (raw t : ℚ), raw < s.threshold →
       onFrame s cls raw t = (s, [("[UNCLEAR]", round3 raw)])) ∧
    (∀ (cs : CallState) (c w : ℚ),
       (onGestureCallback cs "[UNCLEAR]" c w).gestureQueue = cs.gestureQueue) := by
  refine ⟨?_, ?_, ?_⟩
  · intro s cls t h
    simp [onFrame, h]
  · intro s cls raw t h
    simp [onFrame, h]
  · intro cs c w
    unfold onGestureCallback
    cases cs.eventQueues with
    | none => rfl
    | some qs => simp

unseal Rat.sub Rat.add Rat.mul Rat.inv in
/-- C4 witness: the amended theorem applied with confidence exactly 0.65
(the threshold) which is accepted, with confidence 0.3 which is unclear,
and to the callback receiving the "[UNCLEAR]" sentinel. -/
theorem C4_threshold_boundary_witness :
    (onFrame ⟨65/100, GestureBuffer.init 0⟩ "HELLO" (65/100) 0
      = (⟨65/100, ((GestureBuffer.init 0).add (gestureLabel "HELLO") 0).2⟩,
         [(gestureLabel "HELLO", round3 (65/100))])) ∧
    (onFrame ⟨65/100, GestureBuffer.init 0⟩ "X" (3/10) 0
      = (⟨65/100, GestureBuffer.init 0⟩, [("[UNCLEAR]", round3 (3/10))])) ∧
    ((onGestureCallback ⟨some [], some ⟨[], 200⟩⟩ "[UNCLEAR]" (3/10) 0).gestureQueue
      = some ⟨[], 200⟩) :=
  ⟨C4_threshold_boundary.1 ⟨65/100, GestureBuffer.init 0⟩ "HELLO" 0 (by decide),
   C4_threshold_boundary.2.1 ⟨65/100, GestureBuffer.init 0⟩ "X" (3/10) 0 (by decide),
   C4_threshold_boundary.2.2 ⟨some [], some ⟨[], 200⟩⟩ (3/10) 0⟩

unseal Rat.sub Rat.add Rat.mul Rat.inv in
/-- C10: the confidence carried by every emitted gesture event is the raw
top-prediction confidence rounded to three decimal places, while the
accept/unclear decision compares the unrounded raw confidence with the
threshold; concretely, raw confidence 0.64999 is strictly below the 0.65
threshold, yet the resulting unclear event reports confidence 0.65, equal
to the threshold. -/
theorem C10_rounding :
    (∀ (s : ASLState) (cls : String) (raw t : ℚ) (l : String) (c : ℚ),
       (l, c) ∈ (onFrame s cls raw t).2 → c = round3 raw) ∧
    (∀ (s : ASLState) (cls : String) (raw t : ℚ), raw < s.threshold →
       (onFrame s cls raw t).2 = [("[UNCLEAR]", round3 raw)]) ∧
    ((64999 : ℚ)/100000 < 65/100 ∧ (65 : ℚ)/100 ≤ round3 (64999/100000) ∧
     (onFrame ⟨65/100, GestureBuffer.init 0⟩ "X" (64999/100000) 0).2
       = [("[UNCLEAR]", 65/100)]) := by
  refine ⟨?_, ?_, by decide⟩
  · intro s cls raw t l c h
    by_cases h1 : raw < s.threshold
    · simp [onFrame, h1] at h
      exact h.2
    · by_cases h2 : (s.buffer.add (gestureLabel cls) t).1 = true
      · simp [onFrame, h1, h2] at h
        exact h.2
      · simp [onFrame, h1, h2] at h
  · intro s cls raw t h
    simp [onFrame, h]

unseal Rat.sub Rat.add Rat.mul Rat.inv in
/-- C10 witness: the theorem applied at the unclear event of a concrete
below-threshold observation. -/
theorem C10_rounding_witness :
    ((3 : ℚ)/10 = round3 (3/10)) ∧
    ((onFrame ⟨65/100, GestureBuffer.init 0⟩ "X" (3/10) 0).2
       = [("[UNCLEAR]", round3 (3/10))]) :=
  ⟨C10_rounding.1 ⟨65/100, GestureBuffer.init 0⟩ "X" (3/10) 0 "[UNCLEAR]" (3/10)
     (by decide),
   C10_rounding.2.1 ⟨65/100, GestureBuffer.init 0⟩ "X" (3/10) 0 (by decide)⟩

end SignSense
